import Mathlib

/-!
Verification development for the glider repository.

The Python sources are shallowly embedded in Lean:
* machine floats are modelled as rationals (`ℚ`);
* the numerical kernels that the code delegates to external libraries
  (numpy normalise-and-round of direction vectors, the trimesh convex
  hull, the mujoco rigid-body stepper) are taken as explicit function
  parameters, so every theorem is quantified over the collaborator's
  behaviour;
* fallible code (a Python assert, an unbounded wait for a simulation
  event, division by zero in the round-robin clone step) is modelled
  with Option.
-/

namespace Glider

/-- A 3D point, one row of the float vertex arrays used throughout the code. -/
abbrev Point : Type := ℚ × ℚ × ℚ

instance : Inhabited Point := ⟨(0, 0, 0)⟩

/-- Componentwise difference of two points (numpy row subtraction). -/
def psub (a b : Point) : Point := (a.1 - b.1, a.2.1 - b.2.1, a.2.2 - b.2.2)

/-- Squared euclidean norm of a row.  The source compares
euclidean norms against the tolerance 1e-12; both sides being
nonnegative, this is equivalent to comparing squared norms against
(1e-12)^2, which keeps the model inside ℚ. -/
def normSq (p : Point) : ℚ := p.1 * p.1 + p.2.1 * p.2.1 + p.2.2 * p.2.2

/-- (1e-12)^2 : the squared numerical tolerance of surface.py
(`norms > 1e-12`). -/
def tolSq : ℚ := 1 / 10 ^ 24

/-- surface.py line 26: `points.mean(axis=0)`, the default center. -/
def centroid (pts : List Point) : Point :=
  ((pts.map (·.1)).sum / (pts.length : ℚ),
   (pts.map (·.2.1)).sum / (pts.length : ℚ),
   (pts.map (·.2.2)).sum / (pts.length : ℚ))

/-- surface.py lines 25-28: explicit center if given, else the centroid. -/
def centerOf (pts : List Point) (c : Option Point) : Point := c.getD (centroid pts)

/-- surface.py line 30: `directions = points - center_vec`. -/
def directionsOf (pts : List Point) (c : Option Point) : List Point :=
  pts.map (fun p => psub p (centerOf pts c))

/-- surface.py lines 31-32: the boolean mask `norms > 1e-12`
(equivalently, squared norm above the squared tolerance). -/
def maskOf (pts : List Point) (c : Option Point) : List Bool :=
  (directionsOf pts c).map (fun d => decide (tolSq < normSq d))

/-- surface.py line 37: `original_indices = np.nonzero(valid)[0]`,
the positions at which the mask holds, in increasing order. -/
def validIdx (pts : List Point) (c : Option Point) : List Nat :=
  (List.range pts.length).filter (fun i => (maskOf pts c).getD i false)

/-- surface.py line 36: `directions[valid]` — the direction rows kept by the
mask, in order (boolean-mask indexing picks exactly the rows at the
nonzero-mask positions). -/
def validDirs (pts : List Point) (c : Option Point) : List Point :=
  (validIdx pts c).map (fun i => (directionsOf pts c).getD i default)

/-- Helper for `np.unique(..., return_index=True)`: the first occurrence of
each distinct value, paired with its index, in encounter order.
`seen` accumulates values already emitted, `i` is the current index. -/
def firstOccAux : List Point → Nat → List Point → List (Point × Nat)
  | _, _, [] => []
  | seen, i, d :: ds =>
    if d ∈ seen then firstOccAux seen (i + 1) ds
    else (d, i) :: firstOccAux (d :: seen) (i + 1) ds

/-- Lexicographic row order used by `np.unique` to sort its output rows. -/
def pointLexLe (a b : Point) : Bool :=
  decide (a.1 < b.1) ||
    (decide (a.1 = b.1) &&
      (decide (a.2.1 < b.2.1) ||
        (decide (a.2.1 = b.2.1) && decide (a.2.2 ≤ b.2.2))))

/-- surface.py lines 40-41: round each normalised valid direction
(`roundF` is the composite numpy kernel `d ↦ np.round(d / ‖d‖, 6)`,
taken as a parameter), then `np.unique(..., axis=0, return_index=True)`:
the distinct rounded rows sorted lexicographically, each paired with the
index of its first occurrence.  The first components are `unique_dirs`,
the second components are `unique_idx`. -/
def uniqueFirsts (roundF : Point → Point) (pts : List Point) (c : Option Point) :
    List (Point × Nat) :=
  List.insertionSort (fun x y : Point × Nat => pointLexLe x.1 y.1 = true)
    (firstOccAux [] 0 ((validDirs pts c).map roundF))

/-- surface.py, `spherical_delaunay_surface`.

Parameters standing for external numeric collaborators:
* `roundF` — the numpy kernel normalising one direction row to unit
  length and rounding it to `rounding_decimals` (default 6) decimals
  (lines 36 and 40);
* `hull` — `trimesh.convex.convex_hull(...).faces` (line 45), the face
  index triples of the convex hull of the given rows.

The input is typed as a list of 3D rows, so the `points.ndim != 2`
branch of line 22 cannot fire; the `shape[0] < 4` part is kept.
Out-of-range accesses in the final fancy-indexing step (impossible for
the real trimesh collaborator, whose faces index its own vertex rows)
are totalised with `getD`. -/
def spherical_delaunay_surface (roundF : Point → Point)
    (hull : List Point → List (Nat × Nat × Nat))
    (vertices : List Point) (center : Option Point) :
    List Point × List (Nat × Nat × Nat) :=
  let points := vertices
  if points.length < 4 then (points, [])
  else if (maskOf points center).count true < 4 then (points, [])
  else
    let original_indices := validIdx points center
    let uf := uniqueFirsts roundF points center
    if uf.length < 4 then (points, [])
    else
      let mapped := uf.map (fun pr => original_indices.getD pr.2 0)
      let faces := (hull (uf.map Prod.fst)).map
        (fun t => (mapped.getD t.1 0, mapped.getD t.2.1 0, mapped.getD t.2.2 0))
      (points, faces)

/-- Claim C3: in every branch, the first component of
`spherical_delaunay_surface` is the input point list itself — same
length, order and coordinate values; only the face list is derived. -/
theorem surface_preserves_points (roundF : Point → Point)
    (hull : List Point → List (Nat × Nat × Nat))
    (vertices : List Point) (center : Option Point) :
    (spherical_delaunay_surface roundF hull vertices center).1 = vertices := by
  unfold spherical_delaunay_surface
  dsimp only
  split_ifs <;> rfl

/-- Claim C4: with fewer than 4 points, or fewer than 4 directions above
the numerical tolerance, or fewer than 4 distinct rounded directions,
the function returns the untouched input points and an empty face list. -/
theorem surface_degenerate (roundF : Point → Point)
    (hull : List Point → List (Nat × Nat × Nat))
    (vertices : List Point) (center : Option Point)
    (h : vertices.length < 4 ∨ (maskOf vertices center).count true < 4 ∨
        (uniqueFirsts roundF vertices center).length < 4) :
    spherical_delaunay_surface roundF hull vertices center = (vertices, []) := by
  unfold spherical_delaunay_surface
  dsimp only
  split_ifs with h1 h2 h3
  · rfl
  · rfl
  · rfl
  · rcases h with h | h | h <;> omega

theorem surface_degenerate_witness :
    ([((1 : ℚ), (0 : ℚ), (0 : ℚ)), (0, 1, 0), (0, 0, 1)].length < 4 ∨
      (maskOf [((1 : ℚ), (0 : ℚ), (0 : ℚ)), (0, 1, 0), (0, 0, 1)] none).count true < 4 ∨
      (uniqueFirsts id [((1 : ℚ), (0 : ℚ), (0 : ℚ)), (0, 1, 0), (0, 0, 1)] none).length < 4) ∧
    spherical_delaunay_surface id (fun _ => [])
        [((1 : ℚ), (0 : ℚ), (0 : ℚ)), (0, 1, 0), (0, 0, 1)] none =
      ([((1 : ℚ), (0 : ℚ), (0 : ℚ)), (0, 1, 0), (0, 0, 1)], []) :=
  ⟨Or.inl (by decide),
   surface_degenerate id (fun _ => [])
     [((1 : ℚ), (0 : ℚ), (0 : ℚ)), (0, 1, 0), (0, 0, 1)] none (Or.inl (by decide))⟩

lemma maskOf_length (pts : List Point) (c : Option Point) :
    (maskOf pts c).length = pts.length := by
  simp [maskOf, directionsOf]

lemma mem_validIdx {pts : List Point} {c : Option Point} {i : Nat} :
    i ∈ validIdx pts c ↔ i < pts.length ∧ (maskOf pts c).getD i false = true := by
  simp [validIdx, List.mem_filter, List.mem_range]

lemma maskOf_getD (pts : List Point) (c : Option Point) (i : Nat) (h : i < pts.length) :
    (maskOf pts c).getD i false =
      decide (tolSq < normSq (psub (pts.getD i default) (centerOf pts c))) := by
  have hlen : i < (maskOf pts c).length := by rw [maskOf_length]; exact h
  rw [List.getD_eq_getElem _ _ hlen, List.getD_eq_getElem _ _ h]
  simp [maskOf, directionsOf]

lemma valid_of_mem_validIdx {pts : List Point} {c : Option Point} {i : Nat}
    (h : i ∈ validIdx pts c) :
    i < pts.length ∧ tolSq < normSq (psub (pts.getD i default) (centerOf pts c)) := by
  obtain ⟨hlt, hmask⟩ := mem_validIdx.mp h
  refine ⟨hlt, ?_⟩
  rw [maskOf_getD pts c i hlt] at hmask
  exact of_decide_eq_true hmask

lemma firstOccAux_snd_lt :
    ∀ (ds seen : List Point) (i : Nat), ∀ pr ∈ firstOccAux seen i ds, pr.2 < i + ds.length := by
  intro ds
  induction ds with
  | nil => intro seen i pr hpr; simp [firstOccAux] at hpr
  | cons d ds ih =>
    intro seen i pr hpr
    rw [firstOccAux] at hpr
    by_cases hmem : d ∈ seen
    · rw [if_pos hmem] at hpr
      have := ih seen (i + 1) pr hpr
      simpa [Nat.add_assoc, Nat.add_comm 1] using Nat.lt_of_lt_of_le this (by omega)
    · rw [if_neg hmem] at hpr
      rcases List.mem_cons.mp hpr with h | h
      · subst h; simp
      · have := ih (d :: seen) (i + 1) pr h
        simpa using Nat.lt_of_lt_of_le this (by omega)

lemma mem_uniqueFirsts_snd_lt (roundF : Point → Point) (pts : List Point) (c : Option Point) :
    ∀ pr ∈ uniqueFirsts roundF pts c, pr.2 < (validIdx pts c).length := by
  intro pr hpr
  rw [uniqueFirsts, List.mem_insertionSort] at hpr
  have := firstOccAux_snd_lt ((validDirs pts c).map roundF) [] 0 pr hpr
  simpa [validDirs] using this

lemma mapped_getD_mem_validIdx (roundF : Point → Point) (pts : List Point) (c : Option Point)
    (j : Nat) (hj : j < (uniqueFirsts roundF pts c).length) :
    ((uniqueFirsts roundF pts c).map (fun pr => (validIdx pts c).getD pr.2 0)).getD j 0 ∈
      validIdx pts c := by
  have hmlen : j < ((uniqueFirsts roundF pts c).map
      (fun pr => (validIdx pts c).getD pr.2 0)).length := by
    rw [List.length_map]; exact hj
  rw [List.getD_eq_getElem _ _ hmlen, List.getElem_map]
  have hsnd : ((uniqueFirsts roundF pts c)[j]).2 < (validIdx pts c).length :=
    mem_uniqueFirsts_snd_lt roundF pts c _ (List.getElem_mem hj)
  rw [List.getD_eq_getElem _ _ hsnd]
  exact List.getElem_mem hsnd

/-- Claim C5: every face triple returned by `spherical_delaunay_surface`
references only indices inside the input point list, and never the index
of a point whose distance from the center is at or below the numerical
tolerance (a discarded point).  The hypothesis is the trimesh contract:
hull faces index the rows the hull was built from. -/
theorem surface_faces_in_range (roundF : Point → Point)
    (hull : List Point → List (Nat × Nat × Nat))
    (vertices : List Point) (center : Option Point)
    (hHull : ∀ ds : List Point, ∀ t ∈ hull ds,
        t.1 < ds.length ∧ t.2.1 < ds.length ∧ t.2.2 < ds.length) :
    ∀ t ∈ (spherical_delaunay_surface roundF hull vertices center).2,
      (t.1 < vertices.length ∧
        tolSq < normSq (psub (vertices.getD t.1 default) (centerOf vertices center))) ∧
      (t.2.1 < vertices.length ∧
        tolSq < normSq (psub (vertices.getD t.2.1 default) (centerOf vertices center))) ∧
      (t.2.2 < vertices.length ∧
        tolSq < normSq (psub (vertices.getD t.2.2 default) (centerOf vertices center))) := by
  unfold spherical_delaunay_surface
  dsimp only
  split_ifs with h1 h2 h3
  · intro t ht; simp at ht
  · intro t ht; simp at ht
  · intro t ht; simp at ht
  · intro t ht
    simp only [List.mem_map] at ht
    obtain ⟨s, hs, rfl⟩ := ht
    obtain ⟨hs1, hs2, hs3⟩ := hHull _ s hs
    rw [List.length_map] at hs1 hs2 hs3
    exact ⟨valid_of_mem_validIdx (mapped_getD_mem_validIdx roundF vertices center s.1 hs1),
      valid_of_mem_validIdx (mapped_getD_mem_validIdx roundF vertices center s.2.1 hs2),
      valid_of_mem_validIdx (mapped_getD_mem_validIdx roundF vertices center s.2.2 hs3)⟩

/-- A concrete hull collaborator respecting the trimesh contract, for the
C5 witness: one triangle whenever at least three rows are available. -/
def hullW : List Point → List (Nat × Nat × Nat) :=
  fun ds => if 2 < ds.length then [(0, 1, 2)] else []

lemma hullW_contract : ∀ ds : List Point, ∀ t ∈ hullW ds,
    t.1 < ds.length ∧ t.2.1 < ds.length ∧ t.2.2 < ds.length := by
  intro ds t ht
  rw [hullW] at ht
  split_ifs at ht with h
  · rcases List.mem_singleton.mp ht with rfl
    dsimp only
    exact ⟨by omega, by omega, by omega⟩
  · simp at ht

theorem surface_faces_in_range_witness :
    (∀ ds : List Point, ∀ t ∈ hullW ds,
        t.1 < ds.length ∧ t.2.1 < ds.length ∧ t.2.2 < ds.length) ∧
    (∀ t ∈ (spherical_delaunay_surface id hullW
        [((2 : ℚ), (0 : ℚ), (0 : ℚ)), (0, 2, 0), (0, 0, 2), (2, 2, 2)]
        (some (0, 0, 0))).2,
      (t.1 < 4 ∧
        tolSq < normSq (psub ([((2 : ℚ), (0 : ℚ), (0 : ℚ)), (0, 2, 0), (0, 0, 2), (2, 2, 2)].getD t.1 default)
          (centerOf [((2 : ℚ), (0 : ℚ), (0 : ℚ)), (0, 2, 0), (0, 0, 2), (2, 2, 2)] (some (0, 0, 0))))) ∧
      (t.2.1 < 4 ∧
        tolSq < normSq (psub ([((2 : ℚ), (0 : ℚ), (0 : ℚ)), (0, 2, 0), (0, 0, 2), (2, 2, 2)].getD t.2.1 default)
          (centerOf [((2 : ℚ), (0 : ℚ), (0 : ℚ)), (0, 2, 0), (0, 0, 2), (2, 2, 2)] (some (0, 0, 0))))) ∧
      (t.2.2 < 4 ∧
        tolSq < normSq (psub ([((2 : ℚ), (0 : ℚ), (0 : ℚ)), (0, 2, 0), (0, 0, 2), (2, 2, 2)].getD t.2.2 default)
          (centerOf [((2 : ℚ), (0 : ℚ), (0 : ℚ)), (0, 2, 0), (0, 0, 2), (2, 2, 2)] (some (0, 0, 0)))))) :=
  ⟨hullW_contract,
   surface_faces_in_range id hullW
     [((2 : ℚ), (0 : ℚ), (0 : ℚ)), (0, 2, 0), (0, 0, 2), (2, 2, 2)]
     (some (0, 0, 0)) hullW_contract⟩

/-- Modelled from the spec: the genome class `Vehicle` (vehicle.py is not
under src/; only its callers are).  Spec section 3 lists the data: an
ordered vertex cloud, a derived face list (empty for degenerate
genomes), and the scalar attributes max_dim_m, mass_kg (optional
override), orientation (optional), wing_density and the pilot flag.
The constructor defaults mirror the serving schema (`VehicleType`):
optional fields default to none, `pilot` defaults to false. -/
structure Vehicle where
  vertices : List Point := []
  faces : List (Nat × Nat × Nat) := []
  max_dim_m : Option ℚ := none
  mass_kg : Option ℚ := none
  orientation : Option (List ℚ) := none
  wing_density : Option ℚ := none
  pilot : Bool := false
deriving DecidableEq

instance : Inhabited Vehicle := ⟨{}⟩

/-- optimization.py line 9. -/
def NUM_GENES : Nat := 12

/-- optimization.py line 10. -/
def GLIDER_MAX_DIM : ℚ := 5

/-- optimization.py lines 13-14: `create_point` draws three samples from
the ambient global (unseeded) numpy generator and scales them by
`max_dim_m`.  The ambient generator is modelled as a stream `rng`
consumed from position `k`. -/
def create_point (rng : Nat → ℚ) (k : Nat) (max_dim_m : ℚ) : List ℚ :=
  [rng k * max_dim_m, rng (k + 1) * max_dim_m, rng (k + 2) * max_dim_m]

/-- One mujoco simulation of a built world: whether a contact is present
after n integration steps, and the x position of the glider geom
(`GLIDER_GEOM_NAME`) after n steps. -/
structure SimTrace where
  contact : Nat → Bool
  xposAt : Nat → ℚ

/-- The external collaborators consumed by optimization.py's
`fitness_func`: `Vehicle.create_glider_from_vertices` and
`simulation.drop_test_glider` (repository code not under src/), and the
mujoco model/data stepper. -/
structure FitnessEnv where
  createGlider : Vehicle → String × String
  dropTest : String → String → ℚ → String
  run : String → SimTrace

/-- The landing loop of optimization.py lines 34-35
(`while len(data.contact) < 1: mujoco.mj_step(model, data)`): the least
step count at which a contact is registered.  The source loop has no
step limit, so the model is fuel-indexed: `none` means the loop is
still running after the given number of steps. -/
def firstContact (contact : Nat → Bool) : Nat → Nat → Option Nat
  | 0, n => if contact n then some n else none
  | fuel + 1, n => if contact n then some n else firstContact contact fuel (n + 1)

/-- optimization.py lines 17-37, `fitness_func`: wrap a raw vertex list
into a Vehicle (the `type(genes) == list` branch), build the glider and
world XML, step the simulation until first contact, and return the
absolute x displacement of the glider geom at that moment. -/
def fitness_func (env : FitnessEnv) (genes : List Point ⊕ Vehicle) (fuel : Nat) : Option ℚ :=
  let test_vehicle := match genes with
    | Sum.inl vs => ({ vertices := vs } : Vehicle)
    | Sum.inr v => v
  let ga := env.createGlider test_vehicle
  let world_xml := env.dropTest ga.1 ga.2 50
  let tr := env.run world_xml
  (firstContact tr.contact fuel 0).map (fun n => |tr.xposAt n|)

lemma firstContact_none {contact : Nat → Bool} (h : ∀ n, contact n = false) :
    ∀ (fuel n0 : Nat), firstContact contact fuel n0 = none := by
  intro fuel
  induction fuel with
  | zero => intro n0; simp [firstContact, h]
  | succ f ih => intro n0; simp [firstContact, h, ih]

/-- Claim C8 (the code evaluated at the failing input): when no step of
the simulation ever registers a contact, the landing loop of
`fitness_func` is still running after every number of steps — the code
imposes no maximum step count and reports no distinct error kind. -/
theorem fitness_func_never_lands_unbounded (env : FitnessEnv)
    (hnc : ∀ w n, (env.run w).contact n = false)
    (genes : List Point ⊕ Vehicle) (fuel : Nat) :
    fitness_func env genes fuel = none := by
  simp only [fitness_func]
  rw [firstContact_none (fun n => hnc _ n)]
  rfl

/-- A simulator collaborator that never registers contact, for the C8
witness. -/
def envNoContact : FitnessEnv :=
  { createGlider := fun _ => ("", ""), dropTest := fun _ _ _ => "",
    run := fun _ => { contact := fun _ => false, xposAt := fun _ => 0 } }

theorem fitness_func_never_lands_unbounded_witness :
    (∀ w n, (envNoContact.run w).contact n = false) ∧
    fitness_func envNoContact (Sum.inl []) 1000 = none :=
  ⟨fun _ _ => rfl,
   fitness_func_never_lands_unbounded envNoContact (fun _ _ => rfl) (Sum.inl []) 1000⟩

/-- A degenerate genome: three vertices, empty face list. -/
def degVehicle : Vehicle := { vertices := [(0, 0, 0), (1, 0, 0), (0, 1, 0)], faces := [] }

/-- A simulator collaborator that lands immediately at x = -3. -/
def envLandsA : FitnessEnv :=
  { createGlider := fun _ => ("", ""), dropTest := fun _ _ _ => "",
    run := fun _ => { contact := fun _ => true, xposAt := fun _ => -3 } }

/-- A simulator collaborator that lands immediately at x = -7. -/
def envLandsB : FitnessEnv :=
  { createGlider := fun _ => ("", ""), dropTest := fun _ _ _ => "",
    run := fun _ => { contact := fun _ => true, xposAt := fun _ => -7 } }

/-- Claim C10: `fitness_func` has no short-circuit on the face list.
First conjunct: for every collaborator environment and every genome with
an empty face list, the result is exactly the simulator pipeline's
output (scene build, drop-test world, step to first contact, absolute x
displacement) — no branch assigns a fixed fitness to faceless genomes.
Second conjunct: on a concrete faceless genome the result tracks the
simulator's reported position (two simulators give two different `some`
values), so the simulator is really invoked. -/
theorem fitness_func_no_faceless_shortcut :
    (∀ (env : FitnessEnv) (v : Vehicle) (fuel : Nat), v.faces = [] →
      fitness_func env (Sum.inr v) fuel =
        (firstContact
            (env.run (env.dropTest (env.createGlider v).1 (env.createGlider v).2 50)).contact
            fuel 0).map
          (fun n =>
            |(env.run (env.dropTest (env.createGlider v).1 (env.createGlider v).2 50)).xposAt n|)) ∧
    (fitness_func envLandsA (Sum.inr degVehicle) 1 = some 3 ∧
     fitness_func envLandsB (Sum.inr degVehicle) 1 = some 7 ∧
     (3 : ℚ) ≠ 7) := by
  refine ⟨fun env v fuel _ => rfl, by decide, by decide, by norm_num⟩

theorem fitness_func_no_faceless_shortcut_witness :
    degVehicle.faces = [] ∧
    fitness_func envLandsA (Sum.inr degVehicle) 2 =
      (firstContact
          (envLandsA.run
            (envLandsA.dropTest (envLandsA.createGlider degVehicle).1
              (envLandsA.createGlider degVehicle).2 50)).contact 2 0).map
        (fun n =>
          |(envLandsA.run
              (envLandsA.dropTest (envLandsA.createGlider degVehicle).1
                (envLandsA.createGlider degVehicle).2 50)).xposAt n|) :=
  ⟨rfl, fitness_func_no_faceless_shortcut.1 envLandsA degVehicle 2 rfl⟩

/-- Python `int()` applied to a nonnegative-or-negative rational:
truncation toward zero (`int(population_size * weight)` in
optimization.py lines 71 and 77). -/
def pyInt (q : ℚ) : Int := Int.tdiv q.num (q.den : Int)

/-- Python list slicing `l[:k]` for an arbitrary integer bound: a
negative bound counts from the end, and out-of-range bounds clamp. -/
def pyTakeInt {α : Type} (l : List α) (k : Int) : List α :=
  if k < 0 then l.take ((l.length : Int) + k).toNat else l.take k.toNat

lemma pyInt_eq_floor {q : ℚ} (h : 0 ≤ q) : pyInt q = ⌊q⌋ := by
  rw [Rat.floor_def, pyInt]
  exact Int.tdiv_eq_ediv (Rat.num_nonneg.mpr h) (by positivity)

lemma pyInt_nonneg {q : ℚ} (h : 0 ≤ q) : 0 ≤ pyInt q :=
  Int.tdiv_nonneg (Rat.num_nonneg.mpr h) (by positivity)

lemma pyTakeInt_of_nonneg {α : Type} (l : List α) {k : Int} (h : 0 ≤ k) :
    pyTakeInt l k = l.take k.toNat := by
  rw [pyTakeInt, if_neg (not_lt.mpr h)]

/-- The ranking order of optimization.py line 68:
`ranking.sort(key=lambda x: x[1], reverse=True)` — descending by
fitness.  Python sort is stable; inserting before the first element of
equal-or-smaller key reproduces the stable descending order. -/
def rankRel : (Vehicle × ℚ) → (Vehicle × ℚ) → Prop := fun a b => b.2 ≤ a.2

instance : DecidableRel rankRel := fun a b => inferInstanceAs (Decidable (b.2 ≤ a.2))

instance : IsTotal (Vehicle × ℚ) rankRel := ⟨fun a b => le_total b.2 a.2⟩

instance : IsTrans (Vehicle × ℚ) rankRel := ⟨fun _ _ _ hab hbc => le_trans hbc hab⟩

/-- optimization.py lines 59-68: evaluate every genome in population
order (`results`), pair (`zip`), and stable-sort by fitness descending.
The per-genome evaluator (`fitness_func` under a landing simulator) is a
parameter. -/
def rankingOf (fitness : Vehicle → ℚ) (population : List Vehicle) : List (Vehicle × ℚ) :=
  List.insertionSort rankRel (population.zip (population.map fitness))

/-- optimization.py lines 71-73: `ranking[: int(population_size * survival_weight)]`,
keeping the genome of each retained pair. -/
def survivorsOf (fitness : Vehicle → ℚ) (population : List Vehicle) (survival_weight : ℚ) :
    List Vehicle :=
  (pyTakeInt (rankingOf fitness population)
    (pyInt ((population.length : ℚ) * survival_weight))).map Prod.fst

/-- optimization.py line 77: `range(int(population_size * cloning_weight))`
(a negative bound yields an empty range, as `.toNat` clamps). -/
def nClonesOf (population : List Vehicle) (cloning_weight : ℚ) : Nat :=
  (pyInt ((population.length : ℚ) * cloning_weight)).toNat

/-- optimization.py lines 75-83: each clone is
`Vehicle(vertices=survivors[i % len(survivors)].mutate())` — a fresh
Vehicle built from the mutated vertex set only, all other constructor
arguments left at their defaults.  `mutateF` stands for
`Vehicle.mutate` (vehicle.py, not under src/). -/
def clonesOf (fitness : Vehicle → ℚ) (mutateF : Vehicle → List Point)
    (population : List Vehicle) (survival_weight cloning_weight : ℚ) : List Vehicle :=
  (List.range (nClonesOf population cloning_weight)).map
    (fun i =>
      { vertices := mutateF ((survivorsOf fitness population survival_weight).getD
          (i % (survivorsOf fitness population survival_weight).length) default) })

/-- optimization.py lines 85-91: the random fill
`Vehicle(num_vertices=NUM_GENES, max_dim_m=GLIDER_MAX_DIM)` repeated
`population_size - len(clones) - len(survivors)` times (an empty range
when that is not positive).  `freshVerts` stands for the random vertex
sampling of the Vehicle constructor (vehicle.py, not under src/). -/
def fillOf (fitness : Vehicle → ℚ) (mutateF : Vehicle → List Point)
    (freshVerts : Nat → List Point) (population : List Vehicle)
    (survival_weight cloning_weight : ℚ) : List Vehicle :=
  (List.range (population.length -
      (clonesOf fitness mutateF population survival_weight cloning_weight).length -
      (survivorsOf fitness population survival_weight).length)).map
    (fun k => { vertices := freshVerts k, max_dim_m := some GLIDER_MAX_DIM })

/-- optimization.py lines 40-95, `iterate_population` (the code after the
first `return` on line 95 is unreachable and is not modelled).  The
`assert cloning_weight + survival_weight <= 1.0` of line 57 and the
`i % len(survivors)` ZeroDivisionError of line 78 (when there are no
survivors but a positive clone count) are modelled as `none`. -/
def iterate_population (fitness : Vehicle → ℚ) (mutateF : Vehicle → List Point)
    (freshVerts : Nat → List Point) (population : List Vehicle)
    (survival_weight : ℚ := 3 / 10) (cloning_weight : ℚ := 2 / 5) :
    Option (List Vehicle) :=
  if cloning_weight + survival_weight ≤ 1 then
    if (survivorsOf fitness population survival_weight).length = 0 ∧
        nClonesOf population cloning_weight ≠ 0 then none
    else
      some (survivorsOf fitness population survival_weight ++
        clonesOf fitness mutateF population survival_weight cloning_weight ++
        fillOf fitness mutateF freshVerts population survival_weight cloning_weight)
  else none

lemma rankingOf_length (fitness : Vehicle → ℚ) (population : List Vehicle) :
    (rankingOf fitness population).length = population.length := by
  simp [rankingOf]

lemma rankingOf_sorted (fitness : Vehicle → ℚ) (population : List Vehicle) :
    List.Sorted rankRel (rankingOf fitness population) :=
  List.sorted_insertionSort rankRel _

lemma rankingOf_snd_sorted (fitness : Vehicle → ℚ) (population : List Vehicle) :
    List.Sorted (fun a b : ℚ => b ≤ a) ((rankingOf fitness population).map Prod.snd) :=
  List.Pairwise.map Prod.snd (fun _ _ h => h) (rankingOf_sorted fitness population)

lemma survivorsOf_length (fitness : Vehicle → ℚ) (population : List Vehicle)
    {survival_weight : ℚ} (hsw : 0 ≤ survival_weight) (hsw1 : survival_weight ≤ 1) :
    (survivorsOf fitness population survival_weight).length =
      (⌊(population.length : ℚ) * survival_weight⌋).toNat := by
  have hq : 0 ≤ (population.length : ℚ) * survival_weight :=
    mul_nonneg (by positivity) hsw
  have hle : (⌊(population.length : ℚ) * survival_weight⌋).toNat ≤ population.length := by
    have h1 : (population.length : ℚ) * survival_weight ≤ (population.length : ℚ) := by
      calc (population.length : ℚ) * survival_weight ≤ (population.length : ℚ) * 1 :=
            mul_le_mul_of_nonneg_left hsw1 (by positivity)
      _ = (population.length : ℚ) := mul_one _
    have h2 : ⌊(population.length : ℚ) * survival_weight⌋ ≤ (population.length : ℤ) := by
      have := Int.floor_le_floor h1
      simpa using this
    omega
  rw [survivorsOf, pyTakeInt_of_nonneg _ (pyInt_nonneg hq), pyInt_eq_floor hq,
    List.length_map, List.length_take, rankingOf_length]
  omega

lemma nClonesOf_eq_floor (population : List Vehicle) {cloning_weight : ℚ}
    (hcw : 0 ≤ cloning_weight) :
    nClonesOf population cloning_weight = (⌊(population.length : ℚ) * cloning_weight⌋).toNat := by
  rw [nClonesOf, pyInt_eq_floor (mul_nonneg (by positivity) hcw)]

lemma clonesOf_length (fitness : Vehicle → ℚ) (mutateF : Vehicle → List Point)
    (population : List Vehicle) (survival_weight cloning_weight : ℚ) :
    (clonesOf fitness mutateF population survival_weight cloning_weight).length =
      nClonesOf population cloning_weight := by
  simp [clonesOf]

/-- Shared shape lemma for the claims about `iterate_population`: under
the assert and with at least one survivor, the new population is the
concatenation survivors ++ clones ++ fill. -/
lemma iterate_population_some (fitness : Vehicle → ℚ) (mutateF : Vehicle → List Point)
    (freshVerts : Nat → List Point) (population : List Vehicle)
    (survival_weight cloning_weight : ℚ)
    (hw : cloning_weight + survival_weight ≤ 1)
    (hs : (survivorsOf fitness population survival_weight).length ≠ 0) :
    iterate_population fitness mutateF freshVerts population survival_weight cloning_weight =
      some (survivorsOf fitness population survival_weight ++
        clonesOf fitness mutateF population survival_weight cloning_weight ++
        fillOf fitness mutateF freshVerts population survival_weight cloning_weight) := by
  rw [iterate_population, if_pos hw, if_neg (by intro h; exact hs h.1)]

lemma counts_le_population (population : List Vehicle) {survival_weight cloning_weight : ℚ}
    (hsw : 0 ≤ survival_weight) (hcw : 0 ≤ cloning_weight)
    (hw : cloning_weight + survival_weight ≤ 1) :
    (⌊(population.length : ℚ) * survival_weight⌋).toNat +
      (⌊(population.length : ℚ) * cloning_weight⌋).toNat ≤ population.length := by
  have hfs : (⌊(population.length : ℚ) * survival_weight⌋ : ℚ) ≤
      (population.length : ℚ) * survival_weight := Int.floor_le _
  have hfc : (⌊(population.length : ℚ) * cloning_weight⌋ : ℚ) ≤
      (population.length : ℚ) * cloning_weight := Int.floor_le _
  have hsum : (population.length : ℚ) * survival_weight +
      (population.length : ℚ) * cloning_weight ≤ (population.length : ℚ) := by
    calc (population.length : ℚ) * survival_weight + (population.length : ℚ) * cloning_weight
        = (population.length : ℚ) * (cloning_weight + survival_weight) := by ring
    _ ≤ (population.length : ℚ) * 1 := mul_le_mul_of_nonneg_left hw (by positivity)
    _ = (population.length : ℚ) := mul_one _
  have hz : ⌊(population.length : ℚ) * survival_weight⌋ +
      ⌊(population.length : ℚ) * cloning_weight⌋ ≤ (population.length : ℤ) := by
    have : ((⌊(population.length : ℚ) * survival_weight⌋ +
        ⌊(population.length : ℚ) * cloning_weight⌋ : ℤ) : ℚ) ≤ (population.length : ℚ) := by
      push_cast
      linarith
    exact_mod_cast this
  have h0s : 0 ≤ ⌊(population.length : ℚ) * survival_weight⌋ :=
    Int.floor_nonneg.mpr (mul_nonneg (by positivity) hsw)
  have h0c : 0 ≤ ⌊(population.length : ℚ) * cloning_weight⌋ :=
    Int.floor_nonneg.mpr (mul_nonneg (by positivity) hcw)
  omega

/-- Claim C6: for a non-empty population with nonnegative weights whose
sum is at most 1 and at least one survivor, `iterate_population`
returns survivors ++ clones ++ fill in that order; the survivors are the
floor(population_size * survival_weight) top entries of the descending
ranking, there are floor(population_size * cloning_weight) clones, the
total is exactly the input population size, and the ranking is
non-increasing in fitness. -/
theorem iterate_population_composition (fitness : Vehicle → ℚ) (mutateF : Vehicle → List Point)
    (freshVerts : Nat → List Point) (population : List Vehicle)
    (survival_weight cloning_weight : ℚ)
    (hpop : population ≠ []) (hsw : 0 ≤ survival_weight) (hcw : 0 ≤ cloning_weight)
    (hw : cloning_weight + survival_weight ≤ 1)
    (hone : 1 ≤ (⌊(population.length : ℚ) * survival_weight⌋).toNat) :
    iterate_population fitness mutateF freshVerts population survival_weight cloning_weight =
      some (survivorsOf fitness population survival_weight ++
        clonesOf fitness mutateF population survival_weight cloning_weight ++
        fillOf fitness mutateF freshVerts population survival_weight cloning_weight) ∧
    (survivorsOf fitness population survival_weight).length =
      (⌊(population.length : ℚ) * survival_weight⌋).toNat ∧
    survivorsOf fitness population survival_weight =
      ((rankingOf fitness population).take
        (⌊(population.length : ℚ) * survival_weight⌋).toNat).map Prod.fst ∧
    (clonesOf fitness mutateF population survival_weight cloning_weight).length =
      (⌊(population.length : ℚ) * cloning_weight⌋).toNat ∧
    (survivorsOf fitness population survival_weight ++
      clonesOf fitness mutateF population survival_weight cloning_weight ++
      fillOf fitness mutateF freshVerts population survival_weight cloning_weight).length =
      population.length ∧
    List.Sorted (fun a b : ℚ => b ≤ a) ((rankingOf fitness population).map Prod.snd) := by
  have hsw1 : survival_weight ≤ 1 := by linarith
  have hsl := survivorsOf_length fitness population hsw hsw1
  have hq : 0 ≤ (population.length : ℚ) * survival_weight :=
    mul_nonneg (by positivity) hsw
  refine ⟨iterate_population_some fitness mutateF freshVerts population _ _ hw (by omega),
    hsl, ?_, ?_, ?_, rankingOf_snd_sorted fitness population⟩
  · rw [survivorsOf, pyTakeInt_of_nonneg _ (pyInt_nonneg hq), pyInt_eq_floor hq]
  · rw [clonesOf_length, nClonesOf_eq_floor population hcw]
  · have hcount := counts_le_population population hsw hcw hw
    rw [List.length_append, List.length_append, hsl, clonesOf_length,
      nClonesOf_eq_floor population hcw, fillOf, List.length_map, List.length_range,
      clonesOf_length, nClonesOf_eq_floor population hcw, hsl]
    omega

theorem iterate_population_composition_witness :
    (([({} : Vehicle), {}, {}, {}, {}] : List Vehicle) ≠ [] ∧
      (0 : ℚ) ≤ 3 / 10 ∧ (0 : ℚ) ≤ 2 / 5 ∧ (2 / 5 : ℚ) + 3 / 10 ≤ 1 ∧
      1 ≤ (⌊(([({} : Vehicle), {}, {}, {}, {}] : List Vehicle).length : ℚ) * (3 / 10)⌋).toNat) ∧
    iterate_population (fun _ => 0) (fun v => v.vertices) (fun _ => [])
        [({} : Vehicle), {}, {}, {}, {}] (3 / 10) (2 / 5) =
      some (survivorsOf (fun _ => 0) [({} : Vehicle), {}, {}, {}, {}] (3 / 10) ++
        clonesOf (fun _ => 0) (fun v => v.vertices) [({} : Vehicle), {}, {}, {}, {}]
          (3 / 10) (2 / 5) ++
        fillOf (fun _ => 0) (fun v => v.vertices) (fun _ => [])
          [({} : Vehicle), {}, {}, {}, {}] (3 / 10) (2 / 5)) := by
  have hfl : 1 ≤ (⌊(([({} : Vehicle), {}, {}, {}, {}] : List Vehicle).length : ℚ) * (3 / 10)⌋).toNat := by
    norm_num
  exact ⟨⟨by simp, by norm_num, by norm_num, by norm_num, hfl⟩,
    (iterate_population_composition (fun _ => 0) (fun v => v.vertices) (fun _ => [])
      [({} : Vehicle), {}, {}, {}, {}] (3 / 10) (2 / 5)
      (by simp) (by norm_num) (by norm_num) (by norm_num) hfl).1⟩

/-- Concrete evaluator for the clone-attribute scenario: fitness 1 for a
piloted genome, 0 otherwise. -/
def cFit : Vehicle → ℚ := fun v => if v.pilot then 1 else 0

/-- Concrete stand-in for Vehicle.mutate: return the vertex set unchanged. -/
def cMut : Vehicle → List Point := fun v => v.vertices

/-- A genome carrying a non-default attribute (pilot = true). -/
def survCex : Vehicle := { vertices := [(0, 0, 0)], pilot := true }

/-- A second genome with default attributes and lower fitness. -/
def otherCex : Vehicle := { vertices := [(1, 1, 1)] }

/-- A concrete two-genome population whose top-ranked genome is piloted. -/
def popCex : List Vehicle := [survCex, otherCex]

lemma rankingOf_cex : rankingOf cFit popCex = [(survCex, 1), (otherCex, 0)] := by
  rw [rankingOf]
  simp [popCex, cFit, survCex, otherCex, rankRel]

lemma pyInt_cex : pyInt ((popCex.length : ℚ) * (1 / 2)) = 1 := by
  rw [pyInt_eq_floor (by positivity)]
  norm_num [popCex]

lemma survivorsOf_cex : survivorsOf cFit popCex (1 / 2) = [survCex] := by
  rw [survivorsOf, pyInt_cex, pyTakeInt_of_nonneg _ (by norm_num), rankingOf_cex]
  rfl

lemma nClonesOf_cex : nClonesOf popCex (1 / 2) = 1 := by
  rw [nClonesOf, pyInt_cex]
  rfl

lemma clonesOf_cex :
    clonesOf cFit cMut popCex (1 / 2) (1 / 2) = [{ vertices := survCex.vertices }] := by
  rw [clonesOf, nClonesOf_cex, survivorsOf_cex]
  rfl

lemma fillOf_cex : fillOf cFit cMut (fun _ => []) popCex (1 / 2) (1 / 2) = [] := by
  rw [fillOf, clonesOf_cex, survivorsOf_cex]
  simp [popCex]

/-- Claim C7 is false on the code: in a concrete run whose sole survivor
has pilot = true, the clone built from it by optimization.py line 80-83
(`Vehicle(vertices=survivor.mutate())`) carries pilot = false — the
survivor's scalar attributes are not inherited. -/
theorem clone_attrs_counterexample :
    iterate_population cFit cMut (fun _ => []) popCex (1 / 2) (1 / 2) =
      some [survCex, { vertices := survCex.vertices }] ∧
    survCex.pilot = true ∧
    ({ vertices := survCex.vertices } : Vehicle).pilot = false := by
  refine ⟨?_, rfl, rfl⟩
  rw [iterate_population_some cFit cMut (fun _ => []) popCex (1 / 2) (1 / 2) (by norm_num)
      (by rw [survivorsOf_cex]; simp),
    survivorsOf_cex, clonesOf_cex, fillOf_cex]
  rfl

/-- Claim C7 (amended): clone i takes as its vertex set the mutate()
output of survivor i mod len(survivors), but its scalar attributes are
the Vehicle constructor defaults (faces [], max_dim_m none, mass_kg
none, orientation none, wing_density none, pilot false), not the
survivor's attributes. -/
theorem clones_take_default_attrs (fitness : Vehicle → ℚ) (mutateF : Vehicle → List Point)
    (freshVerts : Nat → List Point) (population : List Vehicle)
    (survival_weight cloning_weight : ℚ)
    (hw : cloning_weight + survival_weight ≤ 1)
    (hs : (survivorsOf fitness population survival_weight).length ≠ 0) :
    iterate_population fitness mutateF freshVerts population survival_weight cloning_weight =
      some (survivorsOf fitness population survival_weight ++
        clonesOf fitness mutateF population survival_weight cloning_weight ++
        fillOf fitness mutateF freshVerts population survival_weight cloning_weight) ∧
    ∀ i, i < nClonesOf population cloning_weight →
      (clonesOf fitness mutateF population survival_weight cloning_weight).getD i default =
        { vertices := mutateF ((survivorsOf fitness population survival_weight).getD
            (i % (survivorsOf fitness population survival_weight).length) default),
          faces := [], max_dim_m := none, mass_kg := none,
          orientation := none, wing_density := none, pilot := false } := by
  refine ⟨iterate_population_some fitness mutateF freshVerts population _ _ hw hs, ?_⟩
  intro i hi
  have hlen : i < ((List.range (nClonesOf population cloning_weight)).map
      (fun i => ({ vertices := mutateF ((survivorsOf fitness population survival_weight).getD
        (i % (survivorsOf fitness population survival_weight).length) default) } : Vehicle))).length := by
    simpa using hi
  rw [clonesOf, List.getD_eq_getElem _ _ hlen, List.getElem_map, List.getElem_range]

theorem clones_take_default_attrs_witness :
    ((1 / 2 : ℚ) + 1 / 2 ≤ 1 ∧ (survivorsOf cFit popCex (1 / 2)).length ≠ 0) ∧
    (iterate_population cFit cMut (fun _ => []) popCex (1 / 2) (1 / 2) =
      some (survivorsOf cFit popCex (1 / 2) ++ clonesOf cFit cMut popCex (1 / 2) (1 / 2) ++
        fillOf cFit cMut (fun _ => []) popCex (1 / 2) (1 / 2))) ∧
    (∀ i, i < nClonesOf popCex (1 / 2) →
      (clonesOf cFit cMut popCex (1 / 2) (1 / 2)).getD i default =
        { vertices := cMut ((survivorsOf cFit popCex (1 / 2)).getD
            (i % (survivorsOf cFit popCex (1 / 2)).length) default),
          faces := [], max_dim_m := none, mass_kg := none,
          orientation := none, wing_density := none, pilot := false }) := by
  have hs : (survivorsOf cFit popCex (1 / 2)).length ≠ 0 := by rw [survivorsOf_cex]; simp
  obtain ⟨h1, h2⟩ := clones_take_default_attrs cFit cMut (fun _ => []) popCex (1 / 2) (1 / 2)
    (by norm_num) hs
  exact ⟨⟨by norm_num, hs⟩, h1, h2⟩

/-- src/src/glider/serving/schema.py lines 14-23: the request body of the
/evolution/run endpoint, with its pydantic defaults. -/
structure EvolutionRequest where
  population_size : Nat := 100
  num_generations : Nat := 10
  survival_weight : ℚ := 3 / 10
  cloning_weight : ℚ := 2 / 5
  max_dim_m : ℚ := 9 / 2
  pilot : Bool := false
  mass_kg : Option ℚ := none
  wing_density : Option ℚ := none

/-- The field names of `EvolutionRequest` (schema.py lines 14-23), in
declaration order — the whole configuration surface of an evolution
run. -/
def EvolutionRequestFields : List String :=
  ["population_size", "num_generations", "survival_weight", "cloning_weight",
   "max_dim_m", "pilot", "mass_kg", "wing_density"]

/-- schema.py lines 25-30: one streamed per-generation event. -/
structure GenerationResult where
  generation : Nat
  best_fitness : ℚ
  avg_fitness : ℚ
  best_vehicle : Vehicle
  population_fitness : List ℚ
deriving DecidableEq

/-- The collaborators a full evolution run consumes: the per-genome
evaluator (`fitness_func` under a landing simulator), `Vehicle.mutate`,
and the random vertex sampling of the Vehicle constructor, indexed by
generation and slot so successive draws may differ. -/
structure EvoEnv where
  fitness : Vehicle → ℚ
  mutateF : Vehicle → List Point
  freshVerts : Nat → Nat → List Point

/-- Modelled from the spec: survivor selection in the
`iterate_population` revision that server.py line 123 calls (that
revision of glider/optimization.py is not under src/ — only this caller
is).  Spec section 4.4 step 3: the top
floor(population_size * survival_weight) genomes of the descending
ranking. -/
def survivorsOfS (fitness : Vehicle → ℚ) (population : List Vehicle)
    (survival_weight : ℚ) : List Vehicle :=
  ((rankingOf fitness population).take
    (⌊(population.length : ℚ) * survival_weight⌋).toNat).map Prod.fst

/-- Modelled from the spec (section 4.4 step 4): the clone count
floor(population_size * cloning_weight). -/
def nClonesOfS (population : List Vehicle) (cloning_weight : ℚ) : Nat :=
  (⌊(population.length : ℚ) * cloning_weight⌋).toNat

/-- Modelled from the spec (section 4.4 step 4): clones cycle through the
survivors round-robin, take the survivor's mutate() output as vertex
set, and inherit the survivor's scalar attributes. -/
def clonesOfS (fitness : Vehicle → ℚ) (mutateF : Vehicle → List Point)
    (population : List Vehicle) (survival_weight cloning_weight : ℚ) : List Vehicle :=
  (List.range (nClonesOfS population cloning_weight)).map
    (fun i =>
      let s := (survivorsOfS fitness population survival_weight).getD
        (i % (survivorsOfS fitness population survival_weight).length) default
      { s with vertices := mutateF s })

/-- Modelled from the spec (section 4.4 step 5): random fill up to the
population size, each fresh genome taking the configured envelope,
pilot flag and mass override (the keyword arguments server.py lines
123-130 pass along). -/
def fillOfS (fitness : Vehicle → ℚ) (freshVerts : Nat → List Point)
    (population : List Vehicle) (survival_weight cloning_weight max_dim_m : ℚ)
    (pilot : Bool) (mass_kg : Option ℚ) : List Vehicle :=
  (List.range (population.length -
      (survivorsOfS fitness population survival_weight).length -
      nClonesOfS population cloning_weight)).map
    (fun k => { vertices := freshVerts k, max_dim_m := some max_dim_m,
                pilot := pilot, mass_kg := mass_kg })

/-- Modelled from the spec: the `iterate_population` revision called by
server.py lines 123-130, returning the generation's ranking together
with the new population (spec section 4.4 steps 1-6).  Configuration
errors — weights summing over 1 (spec section 4.4 precondition), or no
survivor while clones are due (spec section 4.4 constraint) — are
rejected, modelled as `none`. -/
def iterate_population_server (fitness : Vehicle → ℚ) (mutateF : Vehicle → List Point)
    (freshVerts : Nat → List Point) (population : List Vehicle)
    (survival_weight cloning_weight max_dim_m : ℚ) (pilot : Bool) (mass_kg : Option ℚ) :
    Option (List (Vehicle × ℚ) × List Vehicle) :=
  if cloning_weight + survival_weight ≤ 1 then
    if (survivorsOfS fitness population survival_weight).length = 0 ∧
        nClonesOfS population cloning_weight ≠ 0 then none
    else
      some (rankingOf fitness population,
        survivorsOfS fitness population survival_weight ++
        clonesOfS fitness mutateF population survival_weight cloning_weight ++
        fillOfS fitness freshVerts population survival_weight cloning_weight
          max_dim_m pilot mass_kg)
  else none

/-- server.py lines 110-119: the initial population — population_size
fresh random genomes with the request's envelope, pilot flag, mass and
wing-density overrides. -/
def initialPopulation (env : EvoEnv) (req : EvolutionRequest) : List Vehicle :=
  (List.range req.population_size).map
    (fun k => { vertices := env.freshVerts 0 k, max_dim_m := some req.max_dim_m,
                pilot := req.pilot, mass_kg := req.mass_kg,
                wing_density := req.wing_density })

/-- server.py lines 132-152: the `GenerationResult` built from a
generation's ranking (destructured as `ranking[0]` and the rest):
`all_fitnesses = [score for _, score in ranking]`,
`avg_fitness = sum(all_fitnesses) / len(all_fitnesses)`, and the best
vehicle serialized alongside. -/
def genResultOf (idx : Nat) (p : Vehicle × ℚ) (rest : List (Vehicle × ℚ)) : GenerationResult :=
  let all_fitnesses := (p :: rest).map Prod.snd
  { generation := idx, best_fitness := p.2,
    avg_fitness := all_fitnesses.sum / (all_fitnesses.length : ℚ),
    best_vehicle := p.1, population_fitness := all_fitnesses }

/-- server.py lines 121-155: the generation loop of `run_evolution`.
`g` counts remaining generations, `idx` is the next generation index;
each round calls the modelled `iterate_population`, reads
`ranking[0]` as best vehicle and fitness (an IndexError — hence `none`
— on an empty ranking), and emits one `GenerationResult` before
recursing. -/
def runGens (env : EvoEnv) (req : EvolutionRequest) :
    Nat → Nat → List Vehicle → Option (List GenerationResult)
  | 0, _, _ => some []
  | g + 1, idx, population =>
    match iterate_population_server env.fitness env.mutateF (env.freshVerts (idx + 1))
        population req.survival_weight req.cloning_weight req.max_dim_m
        req.pilot req.mass_kg with
    | none => none
    | some (ranking, newpop) =>
      match ranking with
      | [] => none
      | p :: rest =>
        (runGens env req g (idx + 1) newpop).map (fun evs => genResultOf idx p rest :: evs)

/-- server.py lines 106-157: the full /evolution/run stream — seed the
initial population, then one event per generation in order. -/
def run_evolution (env : EvoEnv) (req : EvolutionRequest) : Option (List GenerationResult) :=
  runGens env req req.num_generations 0 (initialPopulation env req)

lemma initialPopulation_length (env : EvoEnv) (req : EvolutionRequest) :
    (initialPopulation env req).length = req.population_size := by
  simp [initialPopulation]

lemma floor_mul_weight_le (n : Nat) {w : ℚ} (hw1 : w ≤ 1) :
    (⌊(n : ℚ) * w⌋).toNat ≤ n := by
  have h1 : (n : ℚ) * w ≤ (n : ℚ) := by
    calc (n : ℚ) * w ≤ (n : ℚ) * 1 := mul_le_mul_of_nonneg_left hw1 (by positivity)
    _ = (n : ℚ) := mul_one _
  have h2 : ⌊(n : ℚ) * w⌋ ≤ (n : ℤ) := by
    have := Int.floor_le_floor h1
    simpa using this
  omega

lemma survivorsOfS_length (fitness : Vehicle → ℚ) (population : List Vehicle)
    {survival_weight : ℚ} (hsw1 : survival_weight ≤ 1) :
    (survivorsOfS fitness population survival_weight).length =
      (⌊(population.length : ℚ) * survival_weight⌋).toNat := by
  have := floor_mul_weight_le population.length hsw1
  rw [survivorsOfS, List.length_map, List.length_take, rankingOf_length]
  omega

lemma clonesOfS_length (fitness : Vehicle → ℚ) (mutateF : Vehicle → List Point)
    (population : List Vehicle) (survival_weight cloning_weight : ℚ) :
    (clonesOfS fitness mutateF population survival_weight cloning_weight).length =
      nClonesOfS population cloning_weight := by
  simp [clonesOfS]

lemma iterate_server_some (fitness : Vehicle → ℚ) (mutateF : Vehicle → List Point)
    (freshVerts : Nat → List Point) (population : List Vehicle)
    (survival_weight cloning_weight max_dim_m : ℚ) (pilot : Bool) (mass_kg : Option ℚ)
    (hw : cloning_weight + survival_weight ≤ 1)
    (hs : (survivorsOfS fitness population survival_weight).length ≠ 0) :
    iterate_population_server fitness mutateF freshVerts population
        survival_weight cloning_weight max_dim_m pilot mass_kg =
      some (rankingOf fitness population,
        survivorsOfS fitness population survival_weight ++
        clonesOfS fitness mutateF population survival_weight cloning_weight ++
        fillOfS fitness freshVerts population survival_weight cloning_weight
          max_dim_m pilot mass_kg) := by
  rw [iterate_population_server, if_pos hw, if_neg (by intro h; exact hs h.1)]

lemma newpopS_length (fitness : Vehicle → ℚ) (mutateF : Vehicle → List Point)
    (freshVerts : Nat → List Point) (population : List Vehicle)
    {survival_weight cloning_weight : ℚ} (max_dim_m : ℚ) (pilot : Bool) (mass_kg : Option ℚ)
    (hsw : 0 ≤ survival_weight) (hcw : 0 ≤ cloning_weight)
    (hw : cloning_weight + survival_weight ≤ 1) :
    (survivorsOfS fitness population survival_weight ++
      clonesOfS fitness mutateF population survival_weight cloning_weight ++
      fillOfS fitness freshVerts population survival_weight cloning_weight
        max_dim_m pilot mass_kg).length = population.length := by
  have hsw1 : survival_weight ≤ 1 := by linarith
  have hcount := counts_le_population population hsw hcw hw
  rw [List.length_append, List.length_append, survivorsOfS_length fitness population hsw1,
    clonesOfS_length, fillOfS, List.length_map, List.length_range,
    survivorsOfS_length fitness population hsw1, nClonesOfS]
  omega

lemma zip_map_self_snd {α β : Type} (f : α → β) :
    ∀ (l : List α) (p : α × β), p ∈ l.zip (l.map f) → p.2 = f p.1 := by
  intro l
  induction l with
  | nil => intro p hp; simp at hp
  | cons a l ih =>
    intro p hp
    rw [List.map_cons, List.zip_cons_cons] at hp
    rcases List.mem_cons.mp hp with h | h
    · subst h; rfl
    · exact ih p h

lemma rankingOf_mem_snd (fitness : Vehicle → ℚ) (population : List Vehicle) :
    ∀ p ∈ rankingOf fitness population, p.2 = fitness p.1 := by
  intro p hp
  rw [rankingOf, List.mem_insertionSort] at hp
  exact zip_map_self_snd fitness population p hp

lemma rankingOf_snd_perm (fitness : Vehicle → ℚ) (population : List Vehicle) :
    ((rankingOf fitness population).map Prod.snd).Perm (population.map fitness) := by
  have hp : (rankingOf fitness population).Perm
      (population.zip (population.map fitness)) := List.perm_insertionSort _ _
  have hm := hp.map Prod.snd
  rwa [List.map_snd_zip _ _ (le_of_eq (List.length_map population fitness))] at hm

lemma mean_le_of_forall_le {l : List ℚ} {b : ℚ} (h : ∀ x ∈ l, x ≤ b) (hl : 0 < l.length) :
    l.sum / (l.length : ℚ) ≤ b := by
  rw [div_le_iff₀ (by exact_mod_cast hl)]
  calc l.sum ≤ l.length • b := List.sum_le_card_nsmul l b h
  _ = b * l.length := by rw [nsmul_eq_mul]; ring

/-- Shared workhorse for the claims about the /evolution/run stream: under
the configuration preconditions, the generation loop produces exactly
one event per remaining generation, with consecutive generation
indices, population-sized descending fitness lists, exact arithmetic
means, and best fitness dominating the mean. -/
lemma runGens_spec (env : EvoEnv) (req : EvolutionRequest)
    (hP : 1 ≤ req.population_size) (hsw : 0 ≤ req.survival_weight)
    (hcw : 0 ≤ req.cloning_weight)
    (hw : req.cloning_weight + req.survival_weight ≤ 1)
    (hone : 1 ≤ (⌊(req.population_size : ℚ) * req.survival_weight⌋).toNat) :
    ∀ (g idx : Nat) (pop : List Vehicle), pop.length = req.population_size →
      ∃ evs, runGens env req g idx pop = some evs ∧ evs.length = g ∧
        ∀ i (hi : i < evs.length),
          (evs.get ⟨i, hi⟩).generation = idx + i ∧
          (evs.get ⟨i, hi⟩).population_fitness.length = req.population_size ∧
          (evs.get ⟨i, hi⟩).avg_fitness =
            (evs.get ⟨i, hi⟩).population_fitness.sum / (req.population_size : ℚ) ∧
          (∀ x ∈ (evs.get ⟨i, hi⟩).population_fitness,
            x ≤ (evs.get ⟨i, hi⟩).best_fitness) ∧
          (evs.get ⟨i, hi⟩).avg_fitness ≤ (evs.get ⟨i, hi⟩).best_fitness ∧
          (evs.get ⟨i, hi⟩).best_fitness = env.fitness (evs.get ⟨i, hi⟩).best_vehicle ∧
          (evs.get ⟨i, hi⟩).population_fitness.Sorted (fun a b : ℚ => b ≤ a) := by
  intro g
  induction g with
  | zero =>
    intro idx pop hlen
    exact ⟨[], rfl, rfl, fun i hi => absurd hi (by simp)⟩
  | succ g ih =>
    intro idx pop hlen
    have hsw1 : req.survival_weight ≤ 1 := by linarith
    have hsl : (survivorsOfS env.fitness pop req.survival_weight).length =
        (⌊(pop.length : ℚ) * req.survival_weight⌋).toNat :=
      survivorsOfS_length env.fitness pop hsw1
    have hsne : (survivorsOfS env.fitness pop req.survival_weight).length ≠ 0 := by
      rw [hsl, hlen]; omega
    have hit := iterate_server_some env.fitness env.mutateF (env.freshVerts (idx + 1)) pop
      req.survival_weight req.cloning_weight req.max_dim_m req.pilot req.mass_kg hw hsne
    have hrklen : (rankingOf env.fitness pop).length = req.population_size := by
      rw [rankingOf_length, hlen]
    obtain ⟨bp, rest, hcons⟩ : ∃ p rest, rankingOf env.fitness pop = p :: rest := by
      cases hrk : rankingOf env.fitness pop with
      | nil => rw [hrk] at hrklen; simp at hrklen; omega
      | cons p rest => exact ⟨p, rest, rfl⟩
    obtain ⟨bv, bf⟩ := bp
    have hnew := newpopS_length env.fitness env.mutateF (env.freshVerts (idx + 1)) pop
      req.max_dim_m req.pilot req.mass_kg hsw hcw hw
    rw [hlen] at hnew
    obtain ⟨evs, hevs, hevlen, hprops⟩ := ih (idx + 1) _ hnew
    have hpf_len : (((bv, bf) :: rest).map Prod.snd).length = req.population_size := by
      rw [List.length_map, ← hcons, hrklen]
    have hsorted := rankingOf_sorted env.fitness pop
    rw [hcons] at hsorted
    have hmax : ∀ x ∈ ((bv, bf) :: rest).map Prod.snd, x ≤ bf := by
      intro x hx
      rcases List.mem_map.mp hx with ⟨q, hq, rfl⟩
      rcases List.mem_cons.mp hq with h | h
      · rw [h]
      · exact List.rel_of_sorted_cons hsorted q h
    refine ⟨genResultOf idx (bv, bf) rest :: evs, ?_, by simp [hevlen], ?_⟩
    · simp only [runGens, hit, hcons, hevs]
      rfl
    · intro i hi
      cases i with
      | zero =>
        refine ⟨rfl, hpf_len, ?_, hmax, ?_, ?_, ?_⟩
        · show (((bv, bf) :: rest).map Prod.snd).sum /
              (((((bv, bf) :: rest).map Prod.snd)).length : ℚ) = _
          rw [hpf_len]
          rfl
        · show (((bv, bf) :: rest).map Prod.snd).sum /
              (((((bv, bf) :: rest).map Prod.snd)).length : ℚ) ≤ bf
          exact mean_le_of_forall_le hmax (by rw [hpf_len]; omega)
        · exact rankingOf_mem_snd env.fitness pop (bv, bf)
            (by rw [hcons]; exact List.mem_cons_self _ _)
        · have hs := rankingOf_snd_sorted env.fitness pop
          rw [hcons] at hs
          exact hs
      | succ j =>
        have hj : j < evs.length := by
          have := hi
          simp at this
          omega
        obtain ⟨p1, p2, p3, p4, p5, p6, p7⟩ := hprops j hj
        refine ⟨?_, p2, p3, p4, p5, p6, p7⟩
        show (evs.get ⟨j, hj⟩).generation = idx + (j + 1)
        rw [p1]
        omega

/-- Claim C1: under the run preconditions (a nonempty population,
nonnegative weights summing to at most 1, at least one survivor — all
satisfied by the quoted configuration population_size=5,
num_generations=2, survival_weight=0.3, cloning_weight=0.4), the
/evolution/run endpoint streams exactly num_generations events in
strict generation order; each event carries its generation index,
exactly population_size per-individual fitness values, an average
fitness equal to their arithmetic mean, and the best genome with its
fitness, which dominates every listed fitness and hence the average. -/
theorem run_evolution_stream (env : EvoEnv) (req : EvolutionRequest)
    (hP : 1 ≤ req.population_size) (hsw : 0 ≤ req.survival_weight)
    (hcw : 0 ≤ req.cloning_weight)
    (hw : req.cloning_weight + req.survival_weight ≤ 1)
    (hone : 1 ≤ (⌊(req.population_size : ℚ) * req.survival_weight⌋).toNat) :
    ∃ events, run_evolution env req = some events ∧
      events.length = req.num_generations ∧
      ∀ i (hi : i < events.length),
        (events.get ⟨i, hi⟩).generation = i ∧
        (events.get ⟨i, hi⟩).population_fitness.length = req.population_size ∧
        (events.get ⟨i, hi⟩).avg_fitness =
          (events.get ⟨i, hi⟩).population_fitness.sum / (req.population_size : ℚ) ∧
        (∀ x ∈ (events.get ⟨i, hi⟩).population_fitness,
          x ≤ (events.get ⟨i, hi⟩).best_fitness) ∧
        (events.get ⟨i, hi⟩).avg_fitness ≤ (events.get ⟨i, hi⟩).best_fitness ∧
        (events.get ⟨i, hi⟩).best_fitness = env.fitness (events.get ⟨i, hi⟩).best_vehicle := by
  obtain ⟨evs, h1, h2, h3⟩ := runGens_spec env req hP hsw hcw hw hone req.num_generations 0
    (initialPopulation env req) (initialPopulation_length env req)
  refine ⟨evs, h1, h2, fun i hi => ?_⟩
  obtain ⟨q1, q2, q3, q4, q5, q6, _⟩ := h3 i hi
  exact ⟨by rw [q1]; omega, q2, q3, q4, q5, q6⟩

/-- The collaborator bundle used by the witnesses for the streaming
claims: constant fitness, identity mutation, empty fresh clouds. -/
def envW : EvoEnv :=
  { fitness := fun _ => 0, mutateF := fun v => v.vertices, freshVerts := fun _ _ => [] }

/-- The end-to-end configuration quoted in the spec: 5 genomes, 2
generations, survival weight 0.3, cloning weight 0.4. -/
def reqW : EvolutionRequest :=
  { population_size := 5, num_generations := 2, survival_weight := 3 / 10,
    cloning_weight := 2 / 5, max_dim_m := 9 / 2, pilot := false,
    mass_kg := none, wing_density := none }

theorem run_evolution_stream_witness :
    (1 ≤ reqW.population_size ∧ (0 : ℚ) ≤ reqW.survival_weight ∧
      (0 : ℚ) ≤ reqW.cloning_weight ∧ reqW.cloning_weight + reqW.survival_weight ≤ 1 ∧
      1 ≤ (⌊(reqW.population_size : ℚ) * reqW.survival_weight⌋).toNat) ∧
    (∃ events, run_evolution envW reqW = some events ∧
      events.length = reqW.num_generations ∧
      ∀ i (hi : i < events.length),
        (events.get ⟨i, hi⟩).generation = i ∧
        (events.get ⟨i, hi⟩).population_fitness.length = reqW.population_size ∧
        (events.get ⟨i, hi⟩).avg_fitness =
          (events.get ⟨i, hi⟩).population_fitness.sum / (reqW.population_size : ℚ) ∧
        (∀ x ∈ (events.get ⟨i, hi⟩).population_fitness,
          x ≤ (events.get ⟨i, hi⟩).best_fitness) ∧
        (events.get ⟨i, hi⟩).avg_fitness ≤ (events.get ⟨i, hi⟩).best_fitness ∧
        (events.get ⟨i, hi⟩).best_fitness = envW.fitness (events.get ⟨i, hi⟩).best_vehicle) := by
  have h1 : 1 ≤ reqW.population_size := by norm_num [reqW]
  have h2 : (0 : ℚ) ≤ reqW.survival_weight := by norm_num [reqW]
  have h3 : (0 : ℚ) ≤ reqW.cloning_weight := by norm_num [reqW]
  have h4 : reqW.cloning_weight + reqW.survival_weight ≤ 1 := by norm_num [reqW]
  have h5 : 1 ≤ (⌊(reqW.population_size : ℚ) * reqW.survival_weight⌋).toNat := by
    norm_num [reqW]
  exact ⟨⟨h1, h2, h3, h4, h5⟩, run_evolution_stream envW reqW h1 h2 h3 h4 h5⟩

/-- One generation-boundary step of the serving loop: the new population
produced by the modelled `iterate_population` for the round whose fresh
clouds come from generation index `gidx` (an empty list on the
configuration-error branch, which the streaming claims exclude). -/
def stepPop (env : EvoEnv) (req : EvolutionRequest) (gidx : Nat)
    (pop : List Vehicle) : List Vehicle :=
  match iterate_population_server env.fitness env.mutateF (env.freshVerts gidx) pop
      req.survival_weight req.cloning_weight req.max_dim_m req.pilot req.mass_kg with
  | none => []
  | some (_, newpop) => newpop

/-- The population evaluated `i` rounds after starting the loop at
generation index `idx` with population `pop` (matching the recursion of
`runGens`). -/
def popFrom (env : EvoEnv) (req : EvolutionRequest) (idx : Nat) (pop : List Vehicle) :
    Nat → List Vehicle
  | 0 => pop
  | i + 1 => stepPop env req (idx + i + 1) (popFrom env req idx pop i)

/-- The population the /evolution/run loop evaluates in generation `i`. -/
def popAt (env : EvoEnv) (req : EvolutionRequest) (i : Nat) : List Vehicle :=
  popFrom env req 0 (initialPopulation env req) i

lemma popFrom_succ_shift (env : EvoEnv) (req : EvolutionRequest) :
    ∀ (j idx : Nat) (pop : List Vehicle),
      popFrom env req idx pop (j + 1) =
        popFrom env req (idx + 1) (stepPop env req (idx + 1) pop) j := by
  intro j
  induction j with
  | zero => intro idx pop; rfl
  | succ j ih =>
    intro idx pop
    show stepPop env req (idx + (j + 1) + 1) (popFrom env req idx pop (j + 1)) =
      stepPop env req ((idx + 1) + j + 1)
        (popFrom env req (idx + 1) (stepPop env req (idx + 1) pop) j)
    rw [ih idx pop]
    congr 1
    omega

/-- Every event of a successful loop lists, as its population_fitness, a
permutation of the population-order fitness values of the population
evaluated that round. -/
lemma runGens_perm (env : EvoEnv) (req : EvolutionRequest)
    (hP : 1 ≤ req.population_size)
    (hsw : 0 ≤ req.survival_weight) (hcw : 0 ≤ req.cloning_weight)
    (hw : req.cloning_weight + req.survival_weight ≤ 1)
    (hone : 1 ≤ (⌊(req.population_size : ℚ) * req.survival_weight⌋).toNat) :
    ∀ (g idx : Nat) (pop : List Vehicle), pop.length = req.population_size →
      ∀ evs, runGens env req g idx pop = some evs →
        ∀ i (hi : i < evs.length),
          (evs.get ⟨i, hi⟩).population_fitness.Perm
            ((popFrom env req idx pop i).map env.fitness) := by
  intro g
  induction g with
  | zero =>
    intro idx pop hlen evs hevs i hi
    rw [runGens] at hevs
    simp only [Option.some.injEq] at hevs
    subst hevs
    simp at hi
  | succ g ih =>
    intro idx pop hlen evs hevs i hi
    have hsw1 : req.survival_weight ≤ 1 := by linarith
    have hsne : (survivorsOfS env.fitness pop req.survival_weight).length ≠ 0 := by
      rw [survivorsOfS_length env.fitness pop hsw1, hlen]
      omega
    have hit := iterate_server_some env.fitness env.mutateF (env.freshVerts (idx + 1)) pop
      req.survival_weight req.cloning_weight req.max_dim_m req.pilot req.mass_kg hw hsne
    have hrklen : (rankingOf env.fitness pop).length = req.population_size := by
      rw [rankingOf_length, hlen]
    obtain ⟨bp, rest, hcons⟩ : ∃ p rest, rankingOf env.fitness pop = p :: rest := by
      cases hrk : rankingOf env.fitness pop with
      | nil => rw [hrk] at hrklen; simp at hrklen; omega
      | cons p rest => exact ⟨p, rest, rfl⟩
    obtain ⟨bv, bf⟩ := bp
    have hnew := newpopS_length env.fitness env.mutateF (env.freshVerts (idx + 1)) pop
      req.max_dim_m req.pilot req.mass_kg hsw hcw hw
    rw [hlen] at hnew
    have hstep : stepPop env req (idx + 1) pop =
        survivorsOfS env.fitness pop req.survival_weight ++
        clonesOfS env.fitness env.mutateF pop req.survival_weight req.cloning_weight ++
        fillOfS env.fitness (env.freshVerts (idx + 1)) pop req.survival_weight
          req.cloning_weight req.max_dim_m req.pilot req.mass_kg := by
      rw [stepPop, hit]
    rw [runGens, hit, hcons] at hevs
    dsimp only at hevs
    cases hr : runGens env req g (idx + 1)
        (survivorsOfS env.fitness pop req.survival_weight ++
          clonesOfS env.fitness env.mutateF pop req.survival_weight req.cloning_weight ++
          fillOfS env.fitness (env.freshVerts (idx + 1)) pop req.survival_weight
            req.cloning_weight req.max_dim_m req.pilot req.mass_kg) with
    | none => rw [hr] at hevs; simp at hevs
    | some evs' =>
      rw [hr] at hevs
      simp only [Option.map, Option.some.injEq] at hevs
      subst hevs
      cases i with
      | zero =>
        show (((bv, bf) :: rest).map Prod.snd).Perm (pop.map env.fitness)
        rw [← hcons]
        exact rankingOf_snd_perm env.fitness pop
      | succ j =>
        have hj : j < evs'.length := by
          have h' := hi
          simp at h'
          omega
        have hperm := ih (idx + 1) _ hnew evs' hr j hj
        show ((evs'.get ⟨j, hj⟩).population_fitness).Perm
          ((popFrom env req idx pop (j + 1)).map env.fitness)
        rw [popFrom_succ_shift, hstep]
        exact hperm

/-- Claim C2 (amended): every streamed event's population_fitness is the
ranking-order list — non-increasing in fitness, of population size, and
a permutation of the population-order fitness values of the population
evaluated that generation (it equals the population-order list only
when the ranking happens to coincide with population order). -/
theorem population_fitness_ranked_order (env : EvoEnv) (req : EvolutionRequest)
    (hP : 1 ≤ req.population_size) (hsw : 0 ≤ req.survival_weight)
    (hcw : 0 ≤ req.cloning_weight)
    (hw : req.cloning_weight + req.survival_weight ≤ 1)
    (hone : 1 ≤ (⌊(req.population_size : ℚ) * req.survival_weight⌋).toNat) :
    ∃ events, run_evolution env req = some events ∧
      ∀ i (hi : i < events.length),
        (events.get ⟨i, hi⟩).population_fitness.Sorted (fun a b : ℚ => b ≤ a) ∧
        (events.get ⟨i, hi⟩).population_fitness.length = req.population_size ∧
        (events.get ⟨i, hi⟩).population_fitness.Perm
          ((popAt env req i).map env.fitness) := by
  obtain ⟨evs, h1, h2, h3⟩ := runGens_spec env req hP hsw hcw hw hone req.num_generations 0
    (initialPopulation env req) (initialPopulation_length env req)
  refine ⟨evs, h1, fun i hi => ?_⟩
  obtain ⟨_, p2, _, _, _, _, p7⟩ := h3 i hi
  have hperm := runGens_perm env req hP hsw hcw hw hone req.num_generations 0
    (initialPopulation env req) (initialPopulation_length env req) evs h1 i hi
  exact ⟨p7, p2, hperm⟩

theorem population_fitness_ranked_order_witness :
    (1 ≤ reqW.population_size ∧ (0 : ℚ) ≤ reqW.survival_weight ∧
      (0 : ℚ) ≤ reqW.cloning_weight ∧ reqW.cloning_weight + reqW.survival_weight ≤ 1 ∧
      1 ≤ (⌊(reqW.population_size : ℚ) * reqW.survival_weight⌋).toNat) ∧
    (∃ events, run_evolution envW reqW = some events ∧
      ∀ i (hi : i < events.length),
        (events.get ⟨i, hi⟩).population_fitness.Sorted (fun a b : ℚ => b ≤ a) ∧
        (events.get ⟨i, hi⟩).population_fitness.length = reqW.population_size ∧
        (events.get ⟨i, hi⟩).population_fitness.Perm
          ((popAt envW reqW i).map envW.fitness)) := by
  have h1 : 1 ≤ reqW.population_size := by norm_num [reqW]
  have h2 : (0 : ℚ) ≤ reqW.survival_weight := by norm_num [reqW]
  have h3 : (0 : ℚ) ≤ reqW.cloning_weight := by norm_num [reqW]
  have h4 : reqW.cloning_weight + reqW.survival_weight ≤ 1 := by norm_num [reqW]
  have h5 : 1 ≤ (⌊(reqW.population_size : ℚ) * reqW.survival_weight⌋).toNat := by
    norm_num [reqW]
  exact ⟨⟨h1, h2, h3, h4, h5⟩, population_fitness_ranked_order envW reqW h1 h2 h3 h4 h5⟩

/-- Concrete collaborators for the population-order scenario: fitness is
the x coordinate of the first vertex; the initial sampler returns
distinct clouds for slot 0 and the other slots. -/
def envC2 : EvoEnv :=
  { fitness := fun v => (v.vertices.getD 0 default).1,
    mutateF := fun v => v.vertices,
    freshVerts := fun _ k => if k = 0 then [(0, 0, 0)] else [(1, 0, 0)] }

/-- A two-genome, one-generation run: survival weight 1/2, no clones. -/
def reqC2 : EvolutionRequest :=
  { population_size := 2, num_generations := 1, survival_weight := 1 / 2,
    cloning_weight := 0, max_dim_m := 1, pilot := false,
    mass_kg := none, wing_density := none }

/-- First initial genome (fitness 0). -/
def vA2 : Vehicle := { vertices := [(0, 0, 0)], max_dim_m := some 1 }

/-- Second initial genome (fitness 1). -/
def vB2 : Vehicle := { vertices := [(1, 0, 0)], max_dim_m := some 1 }

lemma initC2 : initialPopulation envC2 reqC2 = [vA2, vB2] := rfl

lemma rankC2 : rankingOf envC2.fitness [vA2, vB2] = [(vB2, 1), (vA2, 0)] := rfl

lemma survC2 : survivorsOfS envC2.fitness [vA2, vB2] (1 / 2) = [vB2] := by
  rw [survivorsOfS,
    show (⌊(([vA2, vB2] : List Vehicle).length : ℚ) * (1 / 2)⌋).toNat = 1 by norm_num,
    rankC2]
  rfl

lemma nClonesC2 : nClonesOfS [vA2, vB2] 0 = 0 := by
  rw [nClonesOfS]
  norm_num

lemma clonesC2 : clonesOfS envC2.fitness envC2.mutateF [vA2, vB2] (1 / 2) 0 = [] := by
  rw [clonesOfS, nClonesC2]
  rfl

lemma fillC2 : fillOfS envC2.fitness (envC2.freshVerts 1) [vA2, vB2] (1 / 2) 0 1 false none =
    [{ vertices := [(0, 0, 0)], max_dim_m := some 1 }] := by
  rw [fillOfS, nClonesC2, survC2]
  rfl

lemma iterC2 : iterate_population_server envC2.fitness envC2.mutateF (envC2.freshVerts 1)
    [vA2, vB2] (1 / 2) 0 1 false none =
    some ([(vB2, 1), (vA2, 0)],
      [vB2, { vertices := [(0, 0, 0)], max_dim_m := some 1 }]) := by
  rw [iterate_server_some envC2.fitness envC2.mutateF (envC2.freshVerts 1) [vA2, vB2]
      (1 / 2) 0 1 false none (by norm_num) (by rw [survC2]; simp),
    rankC2, survC2, clonesC2, fillC2]
  rfl

lemma runC2 : run_evolution envC2 reqC2 = some [genResultOf 0 (vB2, 1) [(vA2, 0)]] := by
  rw [run_evolution, initC2]
  show runGens envC2 reqC2 1 0 [vA2, vB2] = _
  rw [runGens, show envC2.freshVerts (0 + 1) = envC2.freshVerts 1 from rfl]
  rw [show reqC2.survival_weight = 1 / 2 from rfl, show reqC2.cloning_weight = (0 : ℚ) from rfl,
    show reqC2.max_dim_m = (1 : ℚ) from rfl, show reqC2.pilot = false from rfl,
    show reqC2.mass_kg = (none : Option ℚ) from rfl, iterC2]
  rfl

/-- Claim C2 is false on the code: on a concrete two-genome run whose
population-order fitness list is [0, 1], the streamed event's
population_fitness is [1, 0] — the list is emitted in ranked
(descending-fitness) order, not in population order (server.py line
134 reads the scores out of the sorted ranking). -/
theorem population_fitness_order_counterexample :
    (run_evolution envC2 reqC2).map (fun evs => evs.map GenerationResult.population_fitness) =
      some [[1, 0]] ∧
    (initialPopulation envC2 reqC2).map envC2.fitness = [0, 1] ∧
    ([(1 : ℚ), 0] : List ℚ) ≠ [0, 1] := by
  refine ⟨?_, ?_, by norm_num⟩
  · rw [runC2]
    rfl
  · rw [initC2]
    rfl

/-- Claim C9 is false on the code: the /evolution/run configuration
surface (the EvolutionRequest schema) has no random-seed field of any
plausible name, and create_point's output changes with the ambient
global generator state even though its explicit arguments are
identical — so a seed cannot be supplied and equal configurations do
not determine equal random draws. -/
theorem no_seed_counterexample :
    ("seed" ∉ EvolutionRequestFields ∧ "random_seed" ∉ EvolutionRequestFields ∧
      "rng_seed" ∉ EvolutionRequestFields) ∧
    create_point (fun _ => 0) 0 1 ≠ create_point (fun _ => 1) 0 1 := by
  refine ⟨by decide, ?_⟩
  intro h
  rw [create_point, create_point] at h
  norm_num at h

/-- Claim C9 (amended): the configuration surface consumed by the
evolution endpoint consists of exactly population size, number of
generations, survival weight, cloning weight, max dimension, pilot
flag, optional mass override and optional wing-density override — and
no random seed; the randomness consumed by create_point is the ambient
global generator, not part of the request. -/
theorem no_seed_in_config :
    EvolutionRequestFields = ["population_size", "num_generations", "survival_weight",
      "cloning_weight", "max_dim_m", "pilot", "mass_kg", "wing_density"] ∧
    (∀ f ∈ EvolutionRequestFields, f ≠ "seed" ∧ f ≠ "random_seed" ∧ f ≠ "rng_seed") ∧
    (∀ rng : Nat → ℚ, ∀ k : Nat, ∀ m : ℚ,
      create_point rng k m = [rng k * m, rng (k + 1) * m, rng (k + 2) * m]) :=
  ⟨rfl, by decide, fun _ _ _ => rfl⟩

theorem no_seed_in_config_witness :
    ("population_size" ∈ EvolutionRequestFields) ∧
    ("population_size" ≠ "seed" ∧ "population_size" ≠ "random_seed" ∧
      "population_size" ≠ "rng_seed") :=
  ⟨by decide, no_seed_in_config.2.1 "population_size" (by decide)⟩

end Glider
